import Mathlib

/-!
Verification of the student-management-dashboard core against its
natural-language specification.

The development shallowly embeds the code of
`src/lib/mock-api.js`, `src/app/page.jsx` and
`src/components/student-form.jsx`:

* pure computations (statistics, filtering, validation, submission
  normalisation) become Lean functions over `List`/`String`/`Int`/`ℚ`;
* the single random draw of `Math.random()` inside `getCourses` becomes an
  explicit rational parameter `r ∈ [0,1)`;
* the React component state (`courses`, `loading`, `error`) becomes an
  explicit `ControllerState` record, with `loadStart`/`loadFinish`
  describing the synchronous prefix of `loadCourses` and the continuation
  that runs when the awaited fetch settles;
* JavaScript reference semantics (needed for the copy-isolation property)
  is modelled with a tiny explicit heap: addresses, a store mapping
  addresses to `Course` records, and arrays as lists of addresses.

JavaScript numbers that only ever hold integers are modelled as `Int`
(or `Nat` for lengths); `Math.round(a / b)` is modelled exactly over `ℚ`
with `jsRound` (round half towards positive infinity, which is what
`Math.round` does for the non-negative values arising here).
-/

/-- Course record, from the JSDoc typedef in `src/app/page.jsx`:
`{ id: integer, name: string }`. -/
structure Course where
  id : Int
  name : String
deriving DecidableEq, Repr

/-- The fixed catalog `COURSES_DATA` of `src/lib/mock-api.js`. -/
def COURSES_DATA : List Course :=
  [⟨1, "HTML Basics"⟩, ⟨2, "CSS Mastery"⟩, ⟨3, "JavaScript Pro"⟩, ⟨4, "React In Depth"⟩]

/-- The failure probability used in `getCourses` (`Math.random() < 0.1`). -/
def failureRate : ℚ := 1 / 10

/-- The message of the error thrown by `getCourses` on the failure branch. -/
def networkErrMsg : String := "Network error: Unable to fetch courses"

/-- `mockCoursesAPI.getCourses`, `src/lib/mock-api.js`.  The one call to
`Math.random()` is made explicit as the parameter `r`; the awaited 800ms
delay has no observable effect on the result and is elided.  `[...COURSES_DATA]`
returns the catalog contents as a value (the sharing structure of that
spread is studied separately in the heap model below). -/
def getCourses (r : ℚ) : Except String (List Course) :=
  if r < failureRate then
    Except.error networkErrMsg
  else
    Except.ok COURSES_DATA

/-- `mockCoursesAPI.getCourseById`, `src/lib/mock-api.js`:
`COURSES_DATA.find((course) => course.id === id)`, with `course || null`
modelled by `Option`. -/
def getCourseById (id : Int) : Option Course :=
  COURSES_DATA.find? (fun c => c.id == id)

/-! ### Controller state machine (`src/app/page.jsx`) -/

/-- The component state of `StudentDashboard` that `loadCourses` touches:
`courses`, `loading` and `error` (the `error` string is either `null` or a
non-empty literal, so `Option String` is faithful, `null` being `none`). -/
structure ControllerState where
  courses : List Course
  loading : Bool
  error : Option String
deriving DecidableEq, Repr

/-- The initial component state: `useState([])` for courses (the student
seed list is separate), `useState(true)` for loading, `useState(null)` for
error. -/
def initialControllerState : ControllerState :=
  { courses := [], loading := true, error := none }

/-- The static error message installed by the `catch` block of
`loadCourses`. -/
def failedLoadMsg : String := "Failed to load courses. Please try again."

/-- The synchronous prefix of `loadCourses` (before the first `await`):
`setLoading(true); setError(null)`. -/
def loadStart (s : ControllerState) : ControllerState :=
  { s with loading := true, error := none }

/-- The continuation of `loadCourses` once the awaited fetch settles:
on success `setCourses(coursesData)`, on rejection
`setError("Failed to load courses. Please try again.")`; the `finally`
block runs `setLoading(false)` on both paths. -/
def loadFinish (s : ControllerState) (result : Except String (List Course)) :
    ControllerState :=
  match result with
  | Except.ok cs => { s with courses := cs, loading := false }
  | Except.error _ => { s with error := some failedLoadMsg, loading := false }

/-- What the presentation renders, from the top of `StudentDashboard`'s
JSX: `if (loading) return <spinner>; if (error) return <error card>;
return <dashboard>`. -/
inductive ViewState where
  | Loading : ViewState
  | Error : String → ViewState
  | Ready : List Course → ViewState
deriving DecidableEq, Repr

/-- The render dispatch of `src/app/page.jsx` as a function of the
component state. -/
def viewState (s : ControllerState) : ViewState :=
  if s.loading then ViewState.Loading
  else
    match s.error with
    | some m => ViewState.Error m
    | none => ViewState.Ready s.courses

/-! ### Theorems for claims C1 and C2 -/

/-- C1: one uniform sample `r` decides `getCourses`: below the failure
probability 0.10 the call rejects with the static message
"Network error: Unable to fetch courses"; otherwise it resolves with the
full fixed four-course catalog, in catalog definition order, with length
equal to the catalog length — never a partial subset. -/
theorem getCourses_outcome (r : ℚ) :
    (r < failureRate → getCourses r = Except.error networkErrMsg) ∧
    (failureRate ≤ r → getCourses r = Except.ok COURSES_DATA) ∧
    (∀ cs, getCourses r = Except.ok cs →
      cs = COURSES_DATA ∧ cs.length = COURSES_DATA.length ∧ cs.length = 4) := by
  refine ⟨fun h => ?_, fun h => ?_, fun cs h => ?_⟩
  · simp [getCourses, h]
  · simp [getCourses, not_lt.mpr h]
  · unfold getCourses at h
    split at h
    · exact absurd h (by simp)
    · simp only [Except.ok.injEq] at h
      subst h
      exact ⟨rfl, rfl, rfl⟩

/-- C1 witness: the theorem applied at the concrete samples 0 (failure
branch) and 1/2 (success branch). -/
theorem getCourses_outcome_witness :
    getCourses 0 = Except.error networkErrMsg ∧
    getCourses (1 / 2) = Except.ok COURSES_DATA ∧
    COURSES_DATA.length = 4 :=
  ⟨(getCourses_outcome 0).1 (by norm_num [failureRate]),
   (getCourses_outcome (1 / 2)).2.1 (by norm_num [failureRate]),
   ((getCourses_outcome (1 / 2)).2.2 COURSES_DATA
      ((getCourses_outcome (1 / 2)).2.1 (by norm_num [failureRate]))).2.2⟩

/-- C2: the visible state is always exactly one of Loading, Error, Ready
(`viewState` is a total function into a three-constructor type and the
disjuncts below are mutually exclusive); `load()` synchronously enters
Loading clearing any previous error, and once the awaited fetch settles
the state is Ready or Error, never both and never still Loading. -/
theorem controller_state_machine (s : ControllerState)
    (r : Except String (List Course)) :
    viewState (loadStart s) = ViewState.Loading ∧
    (loadStart s).error = none ∧
    viewState (loadFinish (loadStart s) r) ≠ ViewState.Loading ∧
    ((∃ cs, viewState (loadFinish (loadStart s) r) = ViewState.Ready cs) ∨
      (∃ m, viewState (loadFinish (loadStart s) r) = ViewState.Error m)) ∧
    ¬((∃ cs, viewState (loadFinish (loadStart s) r) = ViewState.Ready cs) ∧
      (∃ m, viewState (loadFinish (loadStart s) r) = ViewState.Error m)) := by
  refine ⟨by simp [viewState, loadStart], rfl, ?_, ?_, ?_⟩
  · cases r <;> simp [viewState, loadStart, loadFinish]
  · cases r with
    | ok cs => exact Or.inl ⟨cs, by simp [viewState, loadStart, loadFinish]⟩
    | error m => exact Or.inr ⟨failedLoadMsg, by simp [viewState, loadStart, loadFinish]⟩
  · rintro ⟨⟨cs, hcs⟩, ⟨m, hm⟩⟩
    rw [hcs] at hm
    exact ViewState.noConfusion hm

/-! ### Theorems for claims C3 and C4 (failure path of `loadCourses`) -/

/-- C3 counterexample: when the fetch rejects with the Data Source's
message "Network error: Unable to fetch courses", the stored error is NOT
that message — the `catch` block installs its own static string, so the
failure's message text is replaced, not preserved. -/
theorem errorMessage_replaced_cex :
    (loadFinish (loadStart initialControllerState)
        (Except.error networkErrMsg)).error ≠ some networkErrMsg := by
  decide

/-- C3 amended: on every fetch rejection the Controller transitions to
Error with the static user-facing message
"Failed to load courses. Please try again.", regardless of the message
carried by the failure (which is only logged). -/
theorem errorMessage_static (s : ControllerState) (m : String) :
    (loadFinish (loadStart s) (Except.error m)).error = some failedLoadMsg ∧
    viewState (loadFinish (loadStart s) (Except.error m)) =
      ViewState.Error failedLoadMsg := by
  exact ⟨rfl, by simp [viewState, loadStart, loadFinish]⟩

/-- C4 counterexample: starting from a state already holding the full
catalog, a failed load leaves the courses collection equal to the old
catalog — non-empty, not discarded. -/
theorem coursesRetained_cex :
    (loadFinish
        (loadStart { courses := COURSES_DATA, loading := false, error := none })
        (Except.error networkErrMsg)).courses = COURSES_DATA ∧
    COURSES_DATA ≠ [] := by
  decide

/-- C4 amended: on a failed load, previously loaded courses are retained
unchanged in the Controller's state; they are merely not displayed,
because the visible state is the Error view, which takes precedence over
the course-rendering dashboard. -/
theorem coursesRetained_onFailure (s : ControllerState) (m : String) :
    (loadFinish (loadStart s) (Except.error m)).courses = s.courses ∧
    viewState (loadFinish (loadStart s) (Except.error m)) =
      ViewState.Error failedLoadMsg := by
  exact ⟨rfl, by simp [viewState, loadStart, loadFinish]⟩

/-! ### Statistics (`dashboardStats` memo in `src/app/page.jsx`) -/

/-- Student record, from the JSDoc typedef in `src/app/page.jsx`.
`createdAt` is the JS `Date` value as milliseconds since the epoch. -/
structure Student where
  id : String
  name : String
  email : String
  courseId : Int
  profileImage : String
  createdAt : Int
deriving DecidableEq, Repr

/-- The result record of the `dashboardStats` memo. -/
structure Stats where
  totalStudents : Nat
  totalCourses : Nat
  recentEnrollments : Nat
  averagePerCourse : Int
deriving DecidableEq, Repr

/-- The 30-day window used by `dashboardStats`:
`30 * 24 * 60 * 60 * 1000` milliseconds. -/
def recentWindowMs : Int := 30 * 24 * 60 * 60 * 1000

/-- `Math.round` on the non-negative rationals arising here: round half
towards positive infinity. -/
def jsRound (q : ℚ) : Int := ⌊q + 1 / 2⌋

/-- The `dashboardStats` memo of `src/app/page.jsx`: student count, course
count, count of students enrolled in the trailing 30 days
(`new Date() - new Date(student.createdAt) < 30*24*60*60*1000`), and
`totalCourses > 0 ? Math.round(totalStudents / totalCourses) : 0`. -/
def dashboardStats (students : List Student) (courses : List Course)
    (now : Int) : Stats :=
  let totalStudents := students.length
  let totalCourses := courses.length
  let recentEnrollments :=
    (students.filter (fun s => decide (now - s.createdAt < recentWindowMs))).length
  { totalStudents := totalStudents
    totalCourses := totalCourses
    recentEnrollments := recentEnrollments
    averagePerCourse :=
      if 0 < totalCourses then
        jsRound ((totalStudents : ℚ) / (totalCourses : ℚ))
      else 0 }

/-- One day in milliseconds, for the literal scenario of P5. -/
def dayMs : Int := 24 * 60 * 60 * 1000

/-- The "current time" of the P5 scenario (any fixed instant works). -/
def p5Now : Int := 1000 * dayMs

/-- The students of the P5 scenario: enrolled 10, 40 and 5 days ago, in
courses 1, 1 and 2. -/
def p5Students : List Student :=
  [⟨"1", "A", "a@x.co", 1, "", p5Now - 10 * dayMs⟩,
   ⟨"2", "B", "b@x.co", 1, "", p5Now - 40 * dayMs⟩,
   ⟨"3", "C", "c@x.co", 2, "", p5Now - 5 * dayMs⟩]

/-- The two courses of the P5 scenario. -/
def p5Courses : List Course := [⟨1, "HTML Basics"⟩, ⟨2, "CSS Mastery"⟩]

/-- C5: the statistics are the student count, the course count, the count
of students whose `createdAt` lies within the trailing 30-day window, and
the rounded average students-per-course, which is 0 (never an error) when
there are no courses; the literal P5 scenario yields totalStudents = 3,
totalCourses = 2, recentEnrollments = 2, averagePerCourse = round(3/2) = 2. -/
theorem dashboardStats_spec (students : List Student) (courses : List Course)
    (now : Int) :
    (dashboardStats students courses now).totalStudents = students.length ∧
    (dashboardStats students courses now).totalCourses = courses.length ∧
    (dashboardStats students courses now).recentEnrollments =
      students.countP (fun s => decide (now - s.createdAt < recentWindowMs)) ∧
    (courses.length = 0 →
      (dashboardStats students courses now).averagePerCourse = 0) ∧
    (0 < courses.length →
      (dashboardStats students courses now).averagePerCourse =
        jsRound ((students.length : ℚ) / (courses.length : ℚ))) ∧
    dashboardStats p5Students p5Courses p5Now = ⟨3, 2, 2, 2⟩ := by
  refine ⟨rfl, rfl, ?_, fun h => ?_, fun h => ?_, ?_⟩
  · rw [List.countP_eq_length_filter]; rfl
  · simp [dashboardStats, h]
  · simp [dashboardStats, h]
  · have havg : jsRound ((3 : ℚ) / (2 : ℚ)) = 2 := by norm_num [jsRound]
    have hfields : dashboardStats p5Students p5Courses p5Now =
        ⟨3, 2, 2, if 0 < (2 : Nat) then jsRound ((3 : ℚ) / (2 : ℚ)) else 0⟩ := by
      simp only [dashboardStats, p5Students, p5Courses, p5Now, dayMs,
        recentWindowMs]
      norm_num
    rw [hfields, if_pos (by norm_num), havg]

/-- C5 witness: the theorem's conditional conclusions discharged at the
P5 inputs (positive course count) and at an empty course list. -/
theorem dashboardStats_spec_witness :
    (dashboardStats p5Students p5Courses p5Now).averagePerCourse =
      jsRound ((p5Students.length : ℚ) / (p5Courses.length : ℚ)) ∧
    (dashboardStats p5Students ([] : List Course) p5Now).averagePerCourse = 0 :=
  ⟨(dashboardStats_spec p5Students p5Courses p5Now).2.2.2.2.1 (by decide),
   (dashboardStats_spec p5Students [] p5Now).2.2.2.1 rfl⟩

/-! ### Filtering (`filteredStudents` memo in `src/app/page.jsx`) -/

/-- JS `String.prototype.toLowerCase` on the ASCII strings used here, as
a character list. -/
def lowerChars (s : String) : List Char := s.data.map Char.toLower

/-- Whether `pat` is a prefix of `hay`, as a boolean (the inner loop of
JS `String.prototype.includes`). -/
def listStartsWith : List Char → List Char → Bool
  | _, [] => true
  | [], _ :: _ => false
  | a :: hay, b :: pat => a == b && listStartsWith hay pat

/-- JS `String.prototype.includes` on character lists: `pat` occurs
contiguously somewhere in `hay` (the empty pattern always occurs). -/
def listContainsSub : List Char → List Char → Bool
  | [], pat => pat.isEmpty
  | a :: hay, pat => listStartsWith (a :: hay) pat || listContainsSub hay pat

/-- The `filteredStudents` memo of `src/app/page.jsx`: keep the students
whose lower-cased name or email contains the lower-cased search term, and
whose `courseId.toString()` equals the selector unless the selector is
"all". -/
def filteredStudents (students : List Student) (searchTerm : String)
    (selectedCourse : String) : List Student :=
  students.filter (fun s =>
    (listContainsSub (lowerChars s.name) (lowerChars searchTerm) ||
      listContainsSub (lowerChars s.email) (lowerChars searchTerm)) &&
    (selectedCourse == "all" || toString s.courseId == selectedCourse))

/-- First student of the P6 scenario (the first seed record of
`src/app/page.jsx`). -/
def p6Rajesh : Student :=
  ⟨"1", "Rajesh Patil", "rajesh.patil@gmail.com", 1, "/professional-man.png",
   1736899200000⟩

/-- Second student of the P6 scenario (the second seed record of
`src/app/page.jsx`). -/
def p6Om : Student :=
  ⟨"2", "Om Patel", "om.patel@gmail.com", 2, "/professional-man.png",
   1740009600000⟩

/-- The student list of the P6 scenario. -/
def p6Students : List Student := [p6Rajesh, p6Om]

/-- C6: filtering returns exactly the subsequence (hence in the original
relative order; the input list is a value and is never mutated) of the
students whose name or email contains the search string case-insensitively
and whose courseId matches the selector unless the selector is "all"; in
the literal P6 scenario, searching "pat" with selector "all" keeps both
students and selector "1" keeps only the first. -/
theorem filteredStudents_spec (students : List Student) (term sel : String) :
    List.Sublist (filteredStudents students term sel) students ∧
    (∀ s, s ∈ filteredStudents students term sel ↔
      (s ∈ students ∧
        ((listContainsSub (lowerChars s.name) (lowerChars term) = true ∨
          listContainsSub (lowerChars s.email) (lowerChars term) = true) ∧
         (sel = "all" ∨ toString s.courseId = sel)))) ∧
    filteredStudents p6Students "pat" "all" = p6Students ∧
    filteredStudents p6Students "pat" "1" = [p6Rajesh] := by
  refine ⟨List.filter_sublist students, fun s => ?_, by decide, by decide⟩
  simp [filteredStudents, List.mem_filter, Bool.and_eq_true, Bool.or_eq_true,
    beq_iff_eq]

/-- C8: `getCourseById` is total (it returns an `Option`, never a
failure): for every id it yields a catalog course whose id matches, or
`none` exactly when no catalog entry has that id; catalog ids are
distinct, so the returned course is the unique match. -/
theorem getCourseById_spec (id : Int) :
    (∀ c, getCourseById id = some c → c ∈ COURSES_DATA ∧ c.id = id) ∧
    (getCourseById id = none ↔ ∀ c ∈ COURSES_DATA, c.id ≠ id) ∧
    (COURSES_DATA.map Course.id).Nodup := by
  refine ⟨fun c h => ?_, ?_, by decide⟩
  · refine ⟨List.mem_of_find?_eq_some h, ?_⟩
    have := List.find?_some h
    simpa [beq_iff_eq] using this
  · rw [getCourseById, List.find?_eq_none]
    simp [beq_iff_eq]

/-- C8 witness: the theorem applied at id 1 (present) and id 99 (absent). -/
theorem getCourseById_spec_witness :
    ((⟨1, "HTML Basics"⟩ : Course) ∈ COURSES_DATA ∧
      (⟨1, "HTML Basics"⟩ : Course).id = 1) ∧
    getCourseById 99 = none :=
  ⟨(getCourseById_spec 1).1 ⟨1, "HTML Basics"⟩ (by decide),
   (getCourseById_spec 99).2.1.mpr (by decide)⟩

/-! ### Heap model for reference semantics of the mock API

`[...COURSES_DATA]` in `getCourses` builds a new array whose elements are
the very same `Course` object references as the catalog's, and
`getCourseById` returns a catalog object reference itself.  To reason
about mutation through those references, objects live in an explicit
store: an address-indexed heap of `Course` records; an array of courses
is a list of addresses. -/

/-- Object addresses. -/
abbrev Addr := Nat

/-- A store mapping addresses to `Course` objects. -/
abbrev Heap := Addr → Course

/-- The initial store: the four catalog objects of `COURSES_DATA` live at
addresses 0..3 (all other addresses hold a junk course). -/
def initHeap : Heap := fun a =>
  match a with
  | 0 => ⟨1, "HTML Basics"⟩
  | 1 => ⟨2, "CSS Mastery"⟩
  | 2 => ⟨3, "JavaScript Pro"⟩
  | 3 => ⟨4, "React In Depth"⟩
  | _ => ⟨0, ""⟩

/-- The internal catalog array: the addresses of the four catalog
objects, in definition order. -/
def catalogAddrs : List Addr := [0, 1, 2, 3]

/-- The array returned by a successful `getCourses` call:
`[...COURSES_DATA]` is a fresh array value holding the same element
references as the catalog, in order (a shallow copy). -/
def getCoursesRefs : List Addr := catalogAddrs

/-- Field mutation of the object at address `a` (e.g.
`result[0].name = ...` in JS): the store afterwards. -/
def hUpdate (h : Heap) (a : Addr) (c : Course) : Heap :=
  fun x => if x = a then c else h x

/-- The course values an array of references denotes under a store. -/
def derefAll (h : Heap) (l : List Addr) : List Course := l.map h

/-- `getCourseById` in the heap model: `COURSES_DATA.find(...)` returns
the catalog object's own reference (no copy), or `null`. -/
def getCourseByIdRef (h : Heap) (id : Int) : Option Addr :=
  catalogAddrs.find? (fun a => (h a).id == id)

/-- Mapping two stores over the same reference list gives different
course lists as soon as the stores differ at some listed address. -/
theorem derefAll_ne_of_point_ne {l : List Addr} {a : Addr} (ha : a ∈ l)
    {f g : Heap} (hfg : f a ≠ g a) : derefAll f l ≠ derefAll g l := by
  intro h
  exact hfg (List.map_inj_left.mp h a ha)

/-- C7 counterexample: mutating the first `Course` element of one
`getCourses` result (overwriting the object at its address) changes the
course values observed through another call's result and through the
internal catalog — the elements of the shallow copy are aliased, so copy
isolation fails for element mutation. -/
theorem copy_isolation_cex :
    derefAll (hUpdate initHeap (getCoursesRefs.headD 0) ⟨9, "MUTATED"⟩)
        getCoursesRefs ≠ derefAll initHeap getCoursesRefs ∧
    derefAll (hUpdate initHeap (getCoursesRefs.headD 0) ⟨9, "MUTATED"⟩)
        catalogAddrs ≠ derefAll initHeap catalogAddrs := by
  decide

/-- C7 amended: each `getCourses` result is a fresh array value that is
only a shallow copy — it consists of exactly the catalog's element
references in order (so two calls are structurally equal), the initial
store makes those references denote precisely `COURSES_DATA`, and any
field mutation through a returned element reference is visible through
every other result and through the internal catalog; `getCourseById`
likewise hands out a catalog reference itself rather than a copy. -/
theorem getCourses_shallowCopy (h : Heap) (a : Addr) (c : Course) (id : Int)
    (b : Addr) (ha : a ∈ getCoursesRefs) (hc : c ≠ h a)
    (hb : getCourseByIdRef h id = some b) :
    getCoursesRefs = catalogAddrs ∧
    derefAll initHeap catalogAddrs = COURSES_DATA ∧
    derefAll (hUpdate h a c) getCoursesRefs ≠ derefAll h getCoursesRefs ∧
    derefAll (hUpdate h a c) catalogAddrs ≠ derefAll h catalogAddrs ∧
    b ∈ catalogAddrs := by
  refine ⟨rfl, by decide, ?_, ?_, List.mem_of_find?_eq_some hb⟩
  · exact derefAll_ne_of_point_ne ha (by simp [hUpdate, hc])
  · exact derefAll_ne_of_point_ne ha (by simp [hUpdate, hc])

/-- C7 amended witness: the theorem applied to the initial store, the
first returned element reference, a mutated course value, and the lookup
of id 1. -/
theorem getCourses_shallowCopy_witness :
    ((0 : Addr) ∈ getCoursesRefs ∧ (⟨9, "MUTATED"⟩ : Course) ≠ initHeap 0 ∧
      getCourseByIdRef initHeap 1 = some 0) ∧
    (getCoursesRefs = catalogAddrs ∧
      derefAll initHeap catalogAddrs = COURSES_DATA ∧
      derefAll (hUpdate initHeap 0 ⟨9, "MUTATED"⟩) getCoursesRefs ≠
        derefAll initHeap getCoursesRefs ∧
      derefAll (hUpdate initHeap 0 ⟨9, "MUTATED"⟩) catalogAddrs ≠
        derefAll initHeap catalogAddrs ∧
      (0 : Addr) ∈ catalogAddrs) :=
  ⟨⟨by decide, by decide, by decide⟩,
   getCourses_shallowCopy initHeap 0 ⟨9, "MUTATED"⟩ 1 0 (by decide) (by decide)
     (by decide)⟩

/-! ### Email validation (`validateEmail` in `src/components/student-form.jsx`)

The source tests the regex `/^[^\s@]+@[^\s@]+\.[^\s@]+$/`.  A string
matches that anchored regex exactly when it can be split as
`A ++ "@" ++ B ++ "." ++ C` with `A`, `B`, `C` non-empty and free of
whitespace and `@` (the character classes do admit further dots inside
`B` and `C`, and the engine may pick any dot, not necessarily the last).
`validateEmail` below is that matcher, searching over the split
positions. -/

/-- The character class `[^\s@]`: neither whitespace nor `@`. -/
def isEmailChar (c : Char) : Bool := !c.isWhitespace && c != '@'

/-- Matches `[^\s@]+\.[^\s@]+$` against the whole list: some position `j`
splits it into a non-empty all-`[^\s@]` part, a literal dot, and a
non-empty all-`[^\s@]` tail. -/
def matchAfterAt (r : List Char) : Bool :=
  (List.range r.length).any (fun j =>
    match r.drop j with
    | c :: tail =>
        c == '.' && !(r.take j).isEmpty && (r.take j).all isEmailChar &&
        !tail.isEmpty && tail.all isEmailChar
    | [] => false)

/-- `validateEmail` of `src/components/student-form.jsx`:
`/^[^\s@]+@[^\s@]+\.[^\s@]+$/.test(email)`. -/
def validateEmail (s : String) : Bool :=
  (List.range s.data.length).any (fun i =>
    match s.data.drop i with
    | c :: rest =>
        c == '@' && !(s.data.take i).isEmpty &&
        (s.data.take i).all isEmailChar && matchAfterAt rest
    | [] => false)

/-- Split a list at the first occurrence of `c` (the part before, the
part after), or `none` when `c` does not occur. -/
def splitOnFirst (c : Char) : List Char → Option (List Char × List Char)
  | [] => none
  | x :: xs =>
      if x == c then some ([], xs)
      else (splitOnFirst c xs).map (fun p => (x :: p.1, p.2))

/-- Split a list at the last occurrence of `c`, or `none`. -/
def splitOnLast (c : Char) (l : List Char) : Option (List Char × List Char) :=
  match splitOnFirst c l.reverse with
  | none => none
  | some (p, q) => some (q.reverse, p.reverse)

/-- The claim's reading of the email check, taken from its words: at
least one character free of whitespace and `@` before the `@`, between
the `@` and the LAST dot, and after the LAST dot. -/
def claimEmailCheck (s : String) : Bool :=
  match splitOnFirst '@' s.data with
  | none => false
  | some (localPart, rest) =>
      match splitOnLast '.' rest with
      | none => false
      | some (mid, tld) =>
          !localPart.isEmpty && localPart.all isEmailChar &&
          !mid.isEmpty && mid.all isEmailChar &&
          !tld.isEmpty && tld.all isEmailChar

/-- C9 counterexample: on "a@b.c." the regex matches (backtracking takes
the FIRST dot: "a" @ "b" . "c."), yet the string's last character is its
last dot, so there is no character at all after the last dot — the
claim's "last dot" characterisation would reject it. -/
theorem validateEmail_lastDot_cex :
    validateEmail "a@b.c." = true ∧
    claimEmailCheck "a@b.c." = false ∧
    ("a@b.c." : String).data.getLast? = some '.' := by
  decide

/-- C9 amended: validation accepts "a@b.co" and rejects "a@b",
"a b@c.com" and ""; it requires the string to decompose as
`A ++ "@" ++ B ++ "." ++ C` with `A`, `B`, `C` each non-empty and free of
whitespace and `@` — around SOME dot, not necessarily the last one. -/
theorem validateEmail_spec :
    validateEmail "a@b.co" = true ∧
    validateEmail "a@b" = false ∧
    validateEmail "a b@c.com" = false ∧
    validateEmail "" = false ∧
    ∀ s, validateEmail s = true →
      ∃ A B C : List Char,
        s.data = A ++ '@' :: (B ++ '.' :: C) ∧
        A ≠ [] ∧ B ≠ [] ∧ C ≠ [] ∧
        A.all isEmailChar = true ∧ B.all isEmailChar = true ∧
        C.all isEmailChar = true := by
  refine ⟨by decide, by decide, by decide, by decide, fun s h => ?_⟩
  unfold validateEmail at h
  rw [List.any_eq_true] at h
  obtain ⟨i, _, hfi⟩ := h
  cases hd : s.data.drop i with
  | nil => rw [hd] at hfi; simp at hfi
  | cons c rest =>
    rw [hd] at hfi
    simp only [Bool.and_eq_true, beq_iff_eq, Bool.not_eq_true',
      List.isEmpty_eq_false] at hfi
    obtain ⟨⟨⟨hc, hAne⟩, hAall⟩, hafter⟩ := hfi
    unfold matchAfterAt at hafter
    rw [List.any_eq_true] at hafter
    obtain ⟨j, _, hfj⟩ := hafter
    cases hd2 : rest.drop j with
    | nil => rw [hd2] at hfj; simp at hfj
    | cons d tail =>
      rw [hd2] at hfj
      simp only [Bool.and_eq_true, beq_iff_eq, Bool.not_eq_true',
        List.isEmpty_eq_false] at hfj
      obtain ⟨⟨⟨⟨hdot, hBne⟩, hBall⟩, hCne⟩, hCall⟩ := hfj
      refine ⟨s.data.take i, rest.take j, tail, ?_, hAne, hBne, hCne,
        hAall, hBall, hCall⟩
      have h1 : s.data = s.data.take i ++ c :: rest := by
        rw [← hd, List.take_append_drop]
      have h2 : rest = rest.take j ++ d :: tail := by
        rw [← hd2, List.take_append_drop]
      calc s.data = s.data.take i ++ c :: rest := h1
        _ = s.data.take i ++ c :: (rest.take j ++ d :: tail) := by rw [← h2]
        _ = s.data.take i ++ '@' :: (rest.take j ++ '.' :: tail) := by
              rw [hc, hdot]

/-- C9 amended witness: the decomposition requirement discharged at the
accepted address "a@b.co". -/
theorem validateEmail_spec_witness :
    validateEmail "a@b.co" = true ∧
    ∃ A B C : List Char,
      ("a@b.co" : String).data = A ++ '@' :: (B ++ '.' :: C) ∧
      A ≠ [] ∧ B ≠ [] ∧ C ≠ [] ∧
      A.all isEmailChar = true ∧ B.all isEmailChar = true ∧
      C.all isEmailChar = true :=
  ⟨by decide, validateEmail_spec.2.2.2.2 "a@b.co" (by decide)⟩

/-! ### Form submission (`src/components/student-form.jsx`)

`handleSubmit` validates the controlled form state and, when valid, hands
a normalised record to `onSubmit`.  JS string truthiness (`!x`,
`x || y`) on these string fields is emptiness testing, modelled with
`.data.isEmpty`. -/

/-- The controlled form state of `StudentForm` (all four inputs are
strings; `courseId` holds the selected option's value). -/
structure FormData where
  name : String
  email : String
  courseId : String
  profileImage : String
deriving DecidableEq, Repr

/-- JS `String.prototype.trim`: strip leading and trailing whitespace. -/
def jsTrim (s : String) : String :=
  String.mk
    (((s.data.dropWhile Char.isWhitespace).reverse.dropWhile
        Char.isWhitespace).reverse)

/-- JS `String.prototype.toLowerCase` on the ASCII data used here. -/
def jsLower (s : String) : String := String.mk (s.data.map Char.toLower)

/-- The digit run at the head of the list as a number, or `none` when the
list does not start with a digit. -/
def parseDigits (l : List Char) : Option Nat :=
  let ds := l.takeWhile Char.isDigit
  if ds.isEmpty then none
  else some (ds.foldl (fun a c => a * 10 + (c.toNat - 48)) 0)

/-- JS `Number.parseInt(x)` (radix 10 for the inputs arising here): skip
leading whitespace, optional sign, then the longest digit run; `none`
models `NaN`. -/
def jsParseInt (s : String) : Option Int :=
  match s.data.dropWhile Char.isWhitespace with
  | [] => none
  | c :: rest =>
      if c == '-' then (parseDigits rest).map (fun n => -(n : Int))
      else if c == '+' then (parseDigits rest).map (fun n => (n : Int))
      else (parseDigits (c :: rest)).map (fun n => (n : Int))

/-- UTF-8 bytes of a character (as naturals), for percent-encoding. -/
def utf8Bytes (c : Char) : List Nat :=
  let n := c.toNat
  if n < 128 then [n]
  else if n < 2048 then [192 + n / 64, 128 + n % 64]
  else if n < 65536 then
    [224 + n / 4096, 128 + (n / 64) % 64, 128 + n % 64]
  else
    [240 + n / 262144, 128 + (n / 4096) % 64, 128 + (n / 64) % 64,
     128 + n % 64]

/-- Upper-case hexadecimal digit. -/
def hexDigit (n : Nat) : Char :=
  if n < 10 then Char.ofNat (48 + n) else Char.ofNat (55 + n)

/-- The characters `encodeURIComponent` leaves unescaped:
alphanumerics and `- _ . ! ~ * ' ( )`. -/
def isUnreservedURI (c : Char) : Bool :=
  c.isAlphanum || c == '-' || c == '_' || c == '.' || c == '!' ||
  c == '~' || c == '*' || c == Char.ofNat 39 || c == '(' || c == ')'

/-- JS `encodeURIComponent`: unreserved characters pass through, every
other character becomes the percent-encoding of its UTF-8 bytes. -/
def encodeURIComponent (s : String) : String :=
  String.mk (s.data.flatMap (fun c =>
    if isUnreservedURI c then [c]
    else (utf8Bytes c).flatMap (fun b => ['%', hexDigit (b / 16), hexDigit (b % 16)])))

/-- The generated placeholder URL of `handleSubmit`:
`/placeholder.svg?height=40&width=40&query=` followed by the encoded
query built from the raw (untrimmed) entered name. -/
def placeholderImage (name : String) : String :=
  String.mk (("/placeholder.svg?height=40&width=40&query=").data ++
    (encodeURIComponent (name ++ " professional photo")).data)

/-- The generated placeholder URL is never the empty string (it carries a
non-empty literal prefix). -/
theorem placeholderImage_ne_empty (name : String) :
    placeholderImage name ≠ "" := by
  intro h
  have hdata : (placeholderImage name).data = [] := by rw [h]
  rw [placeholderImage] at hdata
  exact absurd (List.append_eq_nil.mp hdata).1 (by decide)

/-- `validateForm` of `src/components/student-form.jsx`: trimmed name
non-empty and at least 2 characters, trimmed email non-empty, raw email
passing `validateEmail`, and a course selected. -/
def validateForm (f : FormData) : Bool :=
  !(jsTrim f.name).data.isEmpty &&
  decide (2 ≤ (jsTrim f.name).data.length) &&
  !(jsTrim f.email).data.isEmpty &&
  validateEmail f.email &&
  !f.courseId.data.isEmpty

/-- The record `handleSubmit` passes to `onSubmit` (the caller then adds
`id`/`createdAt`). -/
structure SubmittedStudent where
  name : String
  email : String
  courseId : Option Int
  profileImage : String
deriving DecidableEq, Repr

/-- `handleSubmit` of `src/components/student-form.jsx`: when validation
passes, submit the trimmed name, the trimmed lower-cased email, the
parsed course id, and the entered profile image or — when it is empty —
the generated placeholder URL; when validation fails, no submission. -/
def handleSubmit (f : FormData) : Option SubmittedStudent :=
  if validateForm f then
    some { name := jsTrim f.name
           email := jsLower (jsTrim f.email)
           courseId := jsParseInt f.courseId
           profileImage :=
             if f.profileImage.data.isEmpty then placeholderImage f.name
             else f.profileImage }
  else none

/-- C10: every submission that passes validation is normalised — the
submitted name is the entered name trimmed, the email is trimmed and
lower-cased, the courseId is the integer parse of the selected value, and
the profileImage is the entered value or, when that is empty, the
generated placeholder URL, and in either case it is not the empty
string. -/
theorem handleSubmit_spec (f : FormData) (h : validateForm f = true) :
    handleSubmit f = some
      { name := jsTrim f.name
        email := jsLower (jsTrim f.email)
        courseId := jsParseInt f.courseId
        profileImage :=
          if f.profileImage.data.isEmpty then placeholderImage f.name
          else f.profileImage } ∧
    (if f.profileImage.data.isEmpty then placeholderImage f.name
     else f.profileImage) ≠ "" := by
  refine ⟨by simp [handleSubmit, h], ?_⟩
  by_cases him : f.profileImage.data.isEmpty = true
  · simpa [him] using placeholderImage_ne_empty f.name
  · rw [if_neg him]
    intro he
    exact him (by rw [he]; rfl)

/-- C10 witness: the theorem applied to a concrete valid form with spaces
around the name, mixed-case email, course "2" selected and no profile
image. -/
theorem handleSubmit_spec_witness :
    validateForm ⟨" Neha Sharma ", "Neha.Sharma@GMail.com", "2", ""⟩ = true ∧
    (handleSubmit ⟨" Neha Sharma ", "Neha.Sharma@GMail.com", "2", ""⟩ = some
      { name := jsTrim " Neha Sharma "
        email := jsLower (jsTrim "Neha.Sharma@GMail.com")
        courseId := jsParseInt "2"
        profileImage :=
          if ("" : String).data.isEmpty then placeholderImage " Neha Sharma "
          else "" } ∧
     (if ("" : String).data.isEmpty then placeholderImage " Neha Sharma "
      else ("" : String)) ≠ "") :=
  ⟨by decide,
   handleSubmit_spec ⟨" Neha Sharma ", "Neha.Sharma@GMail.com", "2", ""⟩
     (by decide)⟩
